import Mathlib

/-!
Shallow embedding of the Orca email threat search and remediation engine
(src/libs/orca.py) and proofs about the claims of its specification.

The embedding models the observable behaviour of the pure control logic:
the request parameters and bodies built by each loop, the rate-limit
counter and sleep pattern, the per-item success/failure handling, and the
Python return values.  Remote HTTP responses are supplied as explicit
function arguments (by mailbox, by url/mailbox pair, or by request index).
-/

namespace Orca

/-- One entry of the `value` array of a sweeping-API response body, with the
fields read by `find_phish` and `bulk_find_phish`. -/
structure Entry where
  mailbox : String
  mail_message_id : String
  mail_unique_id : String
  mail_message_delivery_time : String
deriving DecidableEq

/-- The normalized match dict built by `Orca.find_phish`
(keys `mailbox`, `mui`, `mmi`, `d_time`); the unit of work consumed by
`purge_email` and `pull_email`.  The spec calls this a MatchRecord. -/
structure MatchRecord where
  mailbox : String
  mui : String
  mmi : String
  d_time : String
deriving DecidableEq

/-- Normalization performed at orca.py:484-490: `find_phish` copies the four
fields of a response entry into its result dict verbatim. -/
def toRecord (e : Entry) : MatchRecord :=
  { mailbox := e.mailbox
    mui := e.mail_unique_id
    mmi := e.mail_message_id
    d_time := e.mail_message_delivery_time }

/-- The keyword arguments of `Orca.find_phish` (`**phish_`): each field is
`some v` when the corresponding key is present. -/
structure Phish where
  url : Option String := none
  file_hash : Option String := none
  sender : Option String := none
  subject : Option String := none
  file_ext : Option String := none
deriving DecidableEq

/-- The query-parameter dict of one sweeping-API request as built by the
if/elif chain of `Orca.find_phish` (orca.py:418-465).  Absent keys are
`none`. -/
structure SweepParams where
  mailbox : String
  lastndays : Nat
  url : Option String := none
  file_sha1 : Option String := none
  sender : Option String := none
  subject : Option String := none
  file_extension : Option String := none
  limit : Option Nat := none
deriving DecidableEq

/-- The if/elif chain of `Orca.find_phish` (orca.py:418-465) that builds the
`params` dict for one mailbox.  The branches are reproduced in source order;
note that the source tests `subject and sender` (line 430) before
`file_ext and subject and sender` (line 446), so the three-field branch is
unreachable, and that no branch handles a subject-only or otherwise
uncovered keyword set: in that case the name `params` is never bound and
the subsequent `request(...)` raises UnboundLocalError, modelled as
`none`. -/
def sweepParams (p : Phish) (mb : String) : Option SweepParams :=
  if p.url.isSome then
    some { mailbox := mb, lastndays := 1, url := p.url }
  else if p.file_hash.isSome then
    some { mailbox := mb, lastndays := 1, file_sha1 := p.file_hash }
  else if p.subject.isSome && p.sender.isSome then
    some { mailbox := mb, lastndays := 1, sender := p.sender,
           subject := p.subject, limit := some 1000 }
  else if p.file_ext.isSome && p.sender.isSome then
    some { mailbox := mb, lastndays := 1, sender := p.sender,
           file_extension := p.file_ext, limit := some 1000 }
  else if p.file_ext.isSome && p.subject.isSome && p.sender.isSome then
    some { mailbox := mb, lastndays := 1, sender := p.sender,
           subject := p.subject, file_extension := p.file_ext,
           limit := some 1000 }
  else if p.sender.isSome then
    some { mailbox := mb, lastndays := 1, sender := p.sender,
           limit := some 1000 }
  else none

/-- One sweeping-API response: its HTTP status and the `value` array of its
JSON body (`none` models a body without a `value` key, as an error body).
`find_phish` never consults `status`: the source line
`response.raise_for_status` (orca.py:473) is an attribute access, not a
call, so it never raises and the except/continue path is dead. -/
structure SweepResponse where
  status : Nat
  value : Option (List Entry)
deriving DecidableEq

/-- Trace of one iteration of the `find_phish` mailbox loop: the rate
counter at the loop head (`pre`), the seconds slept by the rate check
(`sleepFor`, 60 when `pre = 20`, else 0), the counter value at the moment
the GET request is issued (`issue`), and the request's query parameters. -/
structure SweepStep where
  pre : Nat
  sleepFor : Nat
  issue : Nat
  params : SweepParams
deriving DecidableEq

/-- Result of running `find_phish`: the issued requests in order, the
accumulated `evil_list`, the final rate counter, and `error = some e` when
the Python call raises an uncaught exception `e` (in which case the Python
caller receives nothing; `steps` and `records` trace the work done before
the abort). -/
structure SweepResult where
  steps : List SweepStep
  records : List MatchRecord
  finalCounter : Nat
  error : Option String
deriving DecidableEq

/-- The mailbox loop of `Orca.find_phish` (orca.py:413-506).  Per mailbox:
the rate check (`if search_counter == 20: sleep(60); search_counter = 0`,
lines 414-417), the `params` chain (lines 418-465; an unbound `params`
aborts with UnboundLocalError at the `request` call, before any request is
issued), the GET request, then `response.json()['value']` (lines 482-483,
raising KeyError when the body has no `value` key — the status is never
checked, see `SweepResponse`), and on success every entry appended in
order (lines 484-490) and `search_counter += 1`. -/
def find_phish_go (p : Phish) (resp : String → SweepResponse) :
    List String → Nat → SweepResult
  | [], c => ⟨[], [], c, none⟩
  | mb :: rest, c =>
    let sleepFor := if c == 20 then 60 else 0
    let c1 := if c == 20 then 0 else c
    match sweepParams p mb with
    | none => ⟨[], [], c1, some "UnboundLocalError"⟩
    | some ps =>
      let step : SweepStep := ⟨c, sleepFor, c1, ps⟩
      match (resp mb).value with
      | none => ⟨[step], [], c1, some "KeyError"⟩
      | some entries =>
        let tail := find_phish_go p resp rest (c1 + 1)
        ⟨step :: tail.steps, entries.map toRecord ++ tail.records,
         tail.finalCounter, tail.error⟩

/-- `Orca.find_phish` with the mailbox list and per-mailbox responses made
explicit (the source reads `self.mailboxes`, supplied by the out-of-scope
directory lookup).  The rate counter starts at 0 (orca.py:410). -/
def find_phish (p : Phish) (resp : String → SweepResponse)
    (mailboxes : List String) : SweepResult :=
  find_phish_go p resp mailboxes 0

/-- The sweeping endpoint used by `find_phish` (orca.py:408). -/
def sweeping_tm_url : String :=
  "https://api.tmcas.trendmicro.com/v1/sweeping/mails"

/-- Trace of one iteration of the `bulk_find_phish` url/mailbox loop
(rate counter at the loop head, seconds slept, counter at the GET). -/
structure BulkStep where
  pre : Nat
  sleepFor : Nat
  issue : Nat
deriving DecidableEq

/-- Result of running `OrcaPod.bulk_find_phish`: issued requests in order,
the accumulated `phishes` list, the final rate counter, and `error = some e`
when the call raises uncaught exception `e` (the Python caller then
receives nothing; `steps`/`phishes` trace the work before the abort). -/
structure BulkResult where
  steps : List BulkStep
  phishes : List MatchRecord
  finalCounter : Nat
  error : Option String
deriving DecidableEq

/-- The record appended by `bulk_find_phish` (orca.py:278-285): the mailbox
is the iterated one and the other three fields come from `value[0]`. -/
def toBulkRecord (mb : String) (e : Entry) : MatchRecord :=
  { mailbox := mb
    mui := e.mail_unique_id
    mmi := e.mail_message_id
    d_time := e.mail_message_delivery_time }

/-- The nested url/mailbox loop of `OrcaPod.bulk_find_phish`
(orca.py:246-288), flattened over the (url, mailbox) pairs in iteration
order.  Per pair: the rate check (lines 248-251), the GET request (the
status again never raises, line 265 accesses `raise_for_status` without
calling it), then `data['value'][0]` (lines 276-277, raising IndexError on
an empty `value` array); the first entry is appended — as a dict keyed by
`mailbox`, `mmi`, `mui`, `d_time` — only when its `mail_message_id` is
non-empty (line 276), and `search_counter += 1` (line 287). -/
def bulk_find_phish_go (resp : String → String → List Entry) :
    List (String × String) → Nat → BulkResult
  | [], c => ⟨[], [], c, none⟩
  | (u, mb) :: rest, c =>
    let sleepFor := if c == 20 then 60 else 0
    let c1 := if c == 20 then 0 else c
    let step : BulkStep := ⟨c, sleepFor, c1⟩
    match resp u mb with
    | [] => ⟨[step], [], c1, some "IndexError"⟩
    | e :: _ =>
      let tail := bulk_find_phish_go resp rest (c1 + 1)
      let appended : List MatchRecord :=
        if e.mail_message_id.length > 0 then [toBulkRecord mb e] else []
      ⟨step :: tail.steps, appended ++ tail.phishes, tail.finalCounter,
       tail.error⟩

/-- `OrcaPod.bulk_find_phish` with the mailbox list and the per-(url,
mailbox) responses made explicit; the loops iterate urls outermost
(orca.py:246-247) and the rate counter starts at 0 (orca.py:243). -/
def bulk_find_phish (resp : String → String → List Entry)
    (url_list mailboxes : List String) : BulkResult :=
  bulk_find_phish_go resp
    (url_list.flatMap (fun u => mailboxes.map (fun mb => (u, mb)))) 0

/-- One object of the JSON array body of a mitigation POST, as built by
`purge_email` (orca.py:540-548) and `pull_email` (orca.py:597-605). -/
structure MitBody where
  action_type : String
  service : String
  account_provider : String
  mailbox : String
  mail_message_id : String
  mail_unique_id : String
  mail_message_delivery_time : String
deriving DecidableEq

/-- The `json_body` dict of `purge_email` for one record (orca.py:540-548):
`action_type` is `MAIL_DELETE` and the four record fields pass through
verbatim. -/
def purge_json_body (r : MatchRecord) : MitBody :=
  { action_type := "MAIL_DELETE"
    service := "exchange"
    account_provider := "office365"
    mailbox := r.mailbox
    mail_message_id := r.mmi
    mail_unique_id := r.mui
    mail_message_delivery_time := r.d_time }

/-- The `json_body` dict of `pull_email` for one record (orca.py:597-605):
identical to `purge_json_body` except `action_type = MAIL_QUARANTINE`. -/
def pull_json_body (r : MatchRecord) : MitBody :=
  { action_type := "MAIL_QUARANTINE"
    service := "exchange"
    account_provider := "office365"
    mailbox := r.mailbox
    mail_message_id := r.mmi
    mail_unique_id := r.mui
    mail_message_delivery_time := r.d_time }

/-- Trace of one iteration of a mitigation loop: counter at the loop head
(`pre`), seconds slept by the rate check, counter at the POST (`issue`),
the JSON array body of the POST (always a one-element array, `json=[
json_body]` at orca.py:553/610), the response status, and whether the
`status_code != 201` check raised-and-caught HTTPError for this item
(the skip path, orca.py:555-561/612-618). -/
structure MitStep where
  pre : Nat
  sleepFor : Nat
  issue : Nat
  body : List MitBody
  status : Nat
  raised : Bool
deriving DecidableEq

/-- Modelled from the spec: the RemediationResult aggregate
(spec.md section 3) that the specification says a remediation run returns.
No such type exists anywhere in the source; it is declared here only so
that the return value of `purge_email`/`pull_email` (Python `None`,
embedded as `Option RemediationResult`) can be compared with the spec's
words. -/
structure RemediationResult where
  attempted : Nat
  succeeded : Nat
  failed : List (MatchRecord × String)
deriving DecidableEq

/-- Result of running `purge_email` or `pull_email`: the POSTs in order,
the final rate counter, and the Python return value — both functions end
without a `return` statement (their docstrings say `Output: None.`), so
`ret` is always `none`. -/
structure MitResult where
  steps : List MitStep
  finalCounter : Nat
  ret : Option RemediationResult
deriving DecidableEq

/-- The item loop of `Orca.purge_email` (orca.py:534-563).  Per record:
the rate check (`if api_counter == 20: sleep(60); api_counter = 0`, lines
535-538), one POST whose JSON body is the one-element array
`[json_body]` (lines 549-554), then `if response.status_code != 201:
raise HTTPError` caught by the except that logs and continues (lines
555-561), and `api_counter += 1` on both paths (lines 560/563).  `resp i`
is the status code of the i-th POST. -/
def purge_email_go (resp : Nat → Nat) :
    List MatchRecord → Nat → Nat → List MitStep × Nat
  | [], _, c => ([], c)
  | r :: rest, i, c =>
    let sleepFor := if c == 20 then 60 else 0
    let c1 := if c == 20 then 0 else c
    let st := resp i
    let step : MitStep := ⟨c, sleepFor, c1, [purge_json_body r], st, st != 201⟩
    let tail := purge_email_go resp rest (i + 1) (c1 + 1)
    (step :: tail.1, tail.2)

/-- `Orca.purge_email`: the counter starts at 0 (orca.py:530) and the
function returns Python `None` (no `return` statement). -/
def purge_email (resp : Nat → Nat) (evil_list : List MatchRecord) :
    MitResult :=
  let t := purge_email_go resp evil_list 0 0
  ⟨t.1, t.2, none⟩

/-- The item loop of `Orca.pull_email` (orca.py:591-620), reproduced from
its own source: identical in structure to `purge_email_go` with
`pull_json_body` in place of `purge_json_body`. -/
def pull_email_go (resp : Nat → Nat) :
    List MatchRecord → Nat → Nat → List MitStep × Nat
  | [], _, c => ([], c)
  | r :: rest, i, c =>
    let sleepFor := if c == 20 then 60 else 0
    let c1 := if c == 20 then 0 else c
    let st := resp i
    let step : MitStep := ⟨c, sleepFor, c1, [pull_json_body r], st, st != 201⟩
    let tail := pull_email_go resp rest (i + 1) (c1 + 1)
    (step :: tail.1, tail.2)

/-- `Orca.pull_email`: the counter starts at 0 (orca.py:587) and the
function returns Python `None` (no `return` statement). -/
def pull_email (resp : Nat → Nat) (evil_list : List MatchRecord) :
    MitResult :=
  let t := pull_email_go resp evil_list 0 0
  ⟨t.1, t.2, none⟩

/-- The mitigation endpoint used by `purge_email` (orca.py:524). -/
def purge_tm_url : String :=
  "https://api.tmcas.trendmicro.com/v1/mitigation/mails"

/-- The mitigation endpoint used by `pull_email` (orca.py:581). -/
def pull_tm_url : String :=
  "https://api.tmcas.trendmicro.com/v1/mitigation/mails"

/-- Rewrites one mitigation step's bodies to carry the quarantine action
tag, leaving every other field unchanged; used to state that `pull_email`
differs from `purge_email` only in the action tag. -/
def quarantineStep (s : MitStep) : MitStep :=
  { s with body := s.body.map (fun b => { b with action_type := "MAIL_QUARANTINE" }) }

/-- The rate-limiter invariant at one loop iteration: the counter at the
loop head stays within the threshold, the counter at the moment the
request is issued is strictly below the threshold of 20, and an iteration
that finds the counter at the threshold sleeps 60 and issues at 0. -/
def rlOk (pre sleepFor issue : Nat) : Bool :=
  decide (pre ≤ 20) && decide (issue < 20) &&
    (if pre == 20 then sleepFor == 60 && issue == 0 else sleepFor == 0)

/-- Test fixture: `n` distinct MatchRecords. -/
def mkRecords (n : Nat) : List MatchRecord :=
  (List.range n).map (fun i =>
    { mailbox := "mb" ++ toString i
      mui := "mui" ++ toString i
      mmi := "mmi" ++ toString i
      d_time := "time" ++ toString i })

/-- Test fixture: every mitigation POST answers 201 Created. -/
def allCreated : Nat → Nat := fun _ => 201

/-- Test fixture: a sender-only criteria set (valid combination 6). -/
def crit_sender : Phish := { sender := some "evil@example.com" }

/-- Test fixture: sender, subject and file extension all supplied
(the spec's valid combination 3). -/
def crit_ssf : Phish :=
  { sender := some "evil@example.com"
    subject := some "open me"
    file_ext := some "docm" }

/-- Test fixture: a subject-only criteria set (the spec's valid
combination 7). -/
def crit_subject_only : Phish := { subject := some "open me" }

/-- Test fixture: url combined with sender — outside the seven valid
combinations of the spec. -/
def crit_url_sender : Phish :=
  { url := some "https://bad.example.com/x"
    sender := some "evil@example.com" }

/-- Test fixture: a file-hash-only criteria set (valid combination 2). -/
def crit_hash : Phish :=
  { file_hash := some "a94a8fe5ccb19ba61c4c0873d391e987982fbbd3" }

/-- Test fixture entry found in mailbox A. -/
def entryA : Entry :=
  { mailbox := "A"
    mail_message_id := "mmiA"
    mail_unique_id := "muiA"
    mail_message_delivery_time := "2021-03-01T08:00:00.000Z" }

/-- Test fixture entry found in mailbox C. -/
def entryC : Entry :=
  { mailbox := "C"
    mail_message_id := "mmiC"
    mail_unique_id := "muiC"
    mail_message_delivery_time := "2021-03-02T09:00:00.000Z" }

/-- Test fixture: mailboxes A and C answer 200 with one entry each, while
mailbox B answers 500 with an error body that has no `value` array. -/
def respABC : String → SweepResponse := fun mb =>
  if mb == "A" then ⟨200, some [entryA]⟩
  else if mb == "B" then ⟨500, none⟩
  else ⟨200, some [entryC]⟩

/-- Test fixture entries sharing one mailbox, both with non-empty
message ids. -/
def entryOne : Entry :=
  { mailbox := "A"
    mail_message_id := "mmi1"
    mail_unique_id := "mui1"
    mail_message_delivery_time := "2021-03-03T10:00:00.000Z" }

/-- Second test fixture entry in the same mailbox as `entryOne`. -/
def entryTwo : Entry :=
  { mailbox := "A"
    mail_message_id := "mmi2"
    mail_unique_id := "mui2"
    mail_message_delivery_time := "2021-03-03T11:00:00.000Z" }

/-- Test fixture: every bulk search response returns the two entries
`entryOne` and `entryTwo`. -/
def respTwo : String → String → List Entry := fun _ _ => [entryOne, entryTwo]

/-- Test fixture: mailbox A answers 200 with `entryOne`; every other
mailbox answers 200 with an empty `value` array. -/
def respW : String → SweepResponse := fun mb =>
  if mb == "A" then ⟨200, some [entryOne]⟩ else ⟨200, some []⟩

/-- The purge loop posts one single-record body per input record, in input
order, for any starting index and counter. -/
theorem purge_go_bodies (resp : Nat → Nat) (l : List MatchRecord) :
    ∀ (i c : Nat),
      (purge_email_go resp l i c).1.map MitStep.body =
        l.map (fun r => [purge_json_body r]) := by
  induction l with
  | nil => intro i c; rfl
  | cons r rest ih => intro i c; simp [purge_email_go, ih]

/-- The purge loop issues exactly one request per input record. -/
theorem purge_go_len (resp : Nat → Nat) (l : List MatchRecord) :
    ∀ (i c : Nat), (purge_email_go resp l i c).1.length = l.length := by
  induction l with
  | nil => intro i c; rfl
  | cons r rest ih => intro i c; simp [purge_email_go, ih]

/-- Each purge request body echoes the record's delivery time verbatim. -/
theorem purge_go_dtimes (resp : Nat → Nat) (l : List MatchRecord) :
    ∀ (i c : Nat),
      (purge_email_go resp l i c).1.map
          (fun s => s.body.map MitBody.mail_message_delivery_time) =
        l.map (fun r => [r.d_time]) := by
  induction l with
  | nil => intro i c; rfl
  | cons r rest ih => intro i c; simp [purge_email_go, purge_json_body, ih]

/-- In the purge loop, HTTPError is raised-and-caught exactly on non-201
statuses. -/
theorem purge_go_raised (resp : Nat → Nat) (l : List MatchRecord) :
    ∀ (i c : Nat),
      (purge_email_go resp l i c).1.all
          (fun s => s.raised == (s.status != 201)) = true := by
  induction l with
  | nil => intro i c; rfl
  | cons r rest ih => intro i c; simp [purge_email_go, ih]

/-- Rate-limiter invariant for the purge loop: from any counter within the
threshold, every iteration satisfies `rlOk` and the loop leaves the
counter within the threshold. -/
theorem purge_go_rl (resp : Nat → Nat) (l : List MatchRecord) :
    ∀ (i c : Nat), c ≤ 20 →
      (purge_email_go resp l i c).1.all
          (fun s => rlOk s.pre s.sleepFor s.issue) = true ∧
        (purge_email_go resp l i c).2 ≤ 20 := by
  induction l with
  | nil => intro i c hc; simpa [purge_email_go] using hc
  | cons r rest ih =>
    intro i c hc
    by_cases h : c = 20
    · subst h
      have ihr := ih (i + 1) 1 (by omega)
      have hall := ihr.1
      simp [rlOk] at hall
      constructor
      · simp [purge_email_go, rlOk]
        exact hall
      · simpa [purge_email_go] using ihr.2
    · have hb : (c == 20) = false := by simp [h]
      have hlt : c < 20 := lt_of_le_of_ne hc h
      have ihr := ih (i + 1) (c + 1) (by omega)
      have hall := ihr.1
      simp [rlOk] at hall
      constructor
      · simp [purge_email_go, rlOk, hb, h]
        exact ⟨⟨hc, hlt⟩, hall⟩
      · simpa [purge_email_go, hb] using ihr.2

/-- Rate-limiter invariant for the `find_phish` mailbox loop: from any
counter within the threshold, every iteration satisfies `rlOk` and the
loop leaves the counter within the threshold, on success and abort paths
alike. -/
theorem find_go_rl (p : Phish) (resp : String → SweepResponse)
    (mbs : List String) :
    ∀ (c : Nat), c ≤ 20 →
      (find_phish_go p resp mbs c).steps.all
          (fun s => rlOk s.pre s.sleepFor s.issue) = true ∧
        (find_phish_go p resp mbs c).finalCounter ≤ 20 := by
  induction mbs with
  | nil => intro c hc; simpa [find_phish_go] using hc
  | cons mb rest ih =>
    intro c hc
    have hc1 : (if c == 20 then 0 else c) < 20 := by
      by_cases h : c = 20
      · simp [h]
      · simp [h]
        omega
    have hstep : rlOk c (if c == 20 then 60 else 0)
        (if c == 20 then 0 else c) = true := by
      by_cases h : c = 20
      · simp [h, rlOk]
      · have hb : (c == 20) = false := by simp [h]
        have hlt : c < 20 := lt_of_le_of_ne hc h
        simp [rlOk, hb, h]
        exact ⟨hc, hlt⟩
    rcases hsp : sweepParams p mb with _ | ps
    · simpa [find_phish_go, hsp] using hc1.le
    · rcases hv : (resp mb).value with _ | entries
      · constructor
        · simpa [find_phish_go, hsp, hv] using hstep
        · simpa [find_phish_go, hsp, hv] using hc1.le
      · have ihr := ih ((if c == 20 then 0 else c) + 1) (by omega)
        constructor
        · simp only [find_phish_go, hsp, hv, List.all_cons, ihr.1,
                     Bool.and_true]
          exact hstep
        · simpa [find_phish_go, hsp, hv] using ihr.2

/-- Rate-limiter invariant for the `bulk_find_phish` url/mailbox loop. -/
theorem bulk_go_rl (resp : String → String → List Entry)
    (pairs : List (String × String)) :
    ∀ (c : Nat), c ≤ 20 →
      (bulk_find_phish_go resp pairs c).steps.all
          (fun s => rlOk s.pre s.sleepFor s.issue) = true ∧
        (bulk_find_phish_go resp pairs c).finalCounter ≤ 20 := by
  induction pairs with
  | nil => intro c hc; simpa [bulk_find_phish_go] using hc
  | cons um rest ih =>
    intro c hc
    obtain ⟨u, mb⟩ := um
    have hc1 : (if c == 20 then 0 else c) < 20 := by
      by_cases h : c = 20
      · simp [h]
      · simp [h]
        omega
    have hstep : rlOk c (if c == 20 then 60 else 0)
        (if c == 20 then 0 else c) = true := by
      by_cases h : c = 20
      · simp [h, rlOk]
      · have hb : (c == 20) = false := by simp [h]
        have hlt : c < 20 := lt_of_le_of_ne hc h
        simp [rlOk, hb, h]
        exact ⟨hc, hlt⟩
    rcases hr : resp u mb with _ | ⟨e, es⟩
    · constructor
      · simpa [bulk_find_phish_go, hr] using hstep
      · simpa [bulk_find_phish_go, hr] using hc1.le
    · have ihr := ih ((if c == 20 then 0 else c) + 1) (by omega)
      constructor
      · simp only [bulk_find_phish_go, hr, List.all_cons, ihr.1,
                   Bool.and_true]
        exact hstep
      · simpa [bulk_find_phish_go, hr] using ihr.2

/-- On an all-success run (every mailbox has a reachable criteria branch
and a `value` array), `find_phish` appends every entry of every response
in iteration order and raises nothing. -/
theorem find_go_success (p : Phish) (resp : String → SweepResponse)
    (mbs : List String) :
    ∀ (c : Nat),
      (∀ mb ∈ mbs, (sweepParams p mb).isSome) →
      (∀ mb ∈ mbs, ((resp mb).value).isSome) →
      (find_phish_go p resp mbs c).records =
          mbs.flatMap (fun mb => ((resp mb).value.getD []).map toRecord) ∧
        (find_phish_go p resp mbs c).error = none := by
  induction mbs with
  | nil => intro c h1 h2; exact ⟨rfl, rfl⟩
  | cons mb rest ih =>
    intro c h1 h2
    obtain ⟨ps, hps⟩ :=
      Option.isSome_iff_exists.mp (h1 mb (List.mem_cons_self _ _))
    obtain ⟨entries, hv⟩ :=
      Option.isSome_iff_exists.mp (h2 mb (List.mem_cons_self _ _))
    have h1' := fun m hm => h1 m (List.mem_cons_of_mem _ hm)
    have h2' := fun m hm => h2 m (List.mem_cons_of_mem _ hm)
    by_cases h : c = 20
    · subst h
      have ihr := ih 1 h1' h2'
      constructor
      · simp [find_phish_go, hps, hv, ihr.1]
      · simpa [find_phish_go, hps, hv] using ihr.2
    · have hb : (c == 20) = false := by simp [h]
      have ihr := ih (c + 1) h1' h2'
      constructor
      · simp [find_phish_go, hps, hv, hb, ihr.1]
      · simpa [find_phish_go, hps, hv, hb] using ihr.2

/-- For every run of the bulk loop with no empty `value` arrays, the
accumulated phish list keeps, per (url, mailbox) pair in iteration order,
exactly the first response entry — and that only when its message id is
non-empty — and raises nothing. -/
theorem bulk_go_success (resp : String → String → List Entry)
    (pairs : List (String × String)) :
    ∀ (c : Nat),
      (∀ um ∈ pairs, resp um.1 um.2 ≠ []) →
      (bulk_find_phish_go resp pairs c).phishes =
          pairs.flatMap (fun um =>
            match resp um.1 um.2 with
            | [] => []
            | e :: _ =>
              if e.mail_message_id.length > 0 then [toBulkRecord um.2 e]
              else []) ∧
        (bulk_find_phish_go resp pairs c).error = none := by
  induction pairs with
  | nil => intro c h; exact ⟨rfl, rfl⟩
  | cons um rest ih =>
    intro c h
    obtain ⟨u, mb⟩ := um
    rcases hr : resp u mb with _ | ⟨e, es⟩
    · exact absurd hr (h (u, mb) (List.mem_cons_self _ _))
    · have h' := fun m hm => h m (List.mem_cons_of_mem _ hm)
      by_cases hcc : c = 20
      · subst hcc
        have ihr := ih 1 h'
        constructor
        · simp [bulk_find_phish_go, hr, ihr.1]
        · simpa [bulk_find_phish_go, hr] using ihr.2
      · have hb : (c == 20) = false := by simp [hcc]
        have ihr := ih (c + 1) h'
        constructor
        · simp [bulk_find_phish_go, hr, hb, ihr.1]
        · simpa [bulk_find_phish_go, hr, hb] using ihr.2

/-- The pull loop is the purge loop with every body's action tag rewritten
to quarantine. -/
theorem pull_go_eq (resp : Nat → Nat) (l : List MatchRecord) :
    ∀ (i c : Nat),
      pull_email_go resp l i c =
        ((purge_email_go resp l i c).1.map quarantineStep,
         (purge_email_go resp l i c).2) := by
  induction l with
  | nil => intro i c; rfl
  | cons r rest ih =>
    intro i c
    simp [pull_email_go, purge_email_go, ih, quarantineStep,
          purge_json_body, pull_json_body]

/-- Each pull request body echoes the record's delivery time verbatim. -/
theorem pull_go_dtimes (resp : Nat → Nat) (l : List MatchRecord) :
    ∀ (i c : Nat),
      (pull_email_go resp l i c).1.map
          (fun s => s.body.map MitBody.mail_message_delivery_time) =
        l.map (fun r => [r.d_time]) := by
  induction l with
  | nil => intro i c; rfl
  | cons r rest ih => intro i c; simp [pull_email_go, pull_json_body, ih]

/-- C1, counterexample.  The claim says 25 MatchRecords produce exactly 3
batch submissions of sizes 10, 10 and 5.  `purge_email` (the remediation
loop, orca.py:534-554) in fact issues 25 submissions — one POST per record
(`json=[json_body]`) — and no request ever carries 10 records. -/
theorem claim_C1_cex :
    (purge_email allCreated (mkRecords 25)).steps.length = 25 ∧
      (purge_email allCreated (mkRecords 25)).steps.length ≠ 3 ∧
      (purge_email allCreated (mkRecords 25)).steps.countP
        (fun s => s.body.length == 10) = 0 := by
  decide

/-- C1 as amended: `purge_email` consumes its input strictly in order in
batches of exactly one, issuing exactly `n` remediation requests for `n`
records, each request carrying the single-record array for that record
and preceded by exactly one rate-limiter check per iteration. -/
theorem claim_C1_amended (resp : Nat → Nat) (l : List MatchRecord) :
    (purge_email resp l).steps.map MitStep.body =
        l.map (fun r => [purge_json_body r]) ∧
      (purge_email resp l).steps.length = l.length :=
  ⟨purge_go_bodies resp l 0 0, purge_go_len resp l 0 0⟩

/-- C2, counterexample.  The claim says `purge_email` returns a
RemediationResult with `attempted`/`succeeded`/`failed` accounting.  The
source function has no `return` statement (its docstring says
`Output: None.`), so its return value is Python `None` — in particular it
is not the RemediationResult the claim demands for 3 records that were
all accepted. -/
theorem claim_C2_cex :
    (purge_email allCreated (mkRecords 3)).ret = none ∧
      (purge_email allCreated (mkRecords 3)).ret ≠
        some { attempted := 3, succeeded := 3, failed := [] } := by
  decide

/-- C2 as amended: `purge_email` returns None (never a RemediationResult);
for every input and response pattern it issues one single-record request
per input item — continuing past rejected items — and for the empty input
it issues no remote call. -/
theorem claim_C2_amended (resp : Nat → Nat) (l : List MatchRecord) :
    (purge_email resp l).ret = none ∧
      (purge_email resp l).steps.length = l.length ∧
      (purge_email resp []).steps = [] :=
  ⟨rfl, purge_go_len resp l 0 0, rfl⟩

/-- C3, evaluation at the failing inputs.  With sender, subject and
file_ext all supplied, `find_phish` takes the earlier `subject and sender`
branch (orca.py:430), so the request carries no `file_extension` — the
three-field branch at orca.py:446-458 is unreachable.  With subject alone
(a combination the spec lists as valid) no branch binds `params` and the
call aborts.  With url combined with sender (outside the seven
combinations) the url branch silently fires instead of rejecting. -/
theorem claim_C3_eval :
    sweepParams crit_ssf "box" =
        some { mailbox := "box", lastndays := 1,
               sender := some "evil@example.com",
               subject := some "open me", limit := some 1000 } ∧
      (sweepParams crit_ssf "box").map SweepParams.file_extension =
        some none ∧
      sweepParams crit_subject_only "box" = none ∧
      sweepParams crit_url_sender "box" =
        some { mailbox := "box", lastndays := 1,
               url := some "https://bad.example.com/x" } := by
  decide

/-- C4, counterexample.  The claim says 20 permits from a fresh counter
trigger exactly one cooldown, on the 20th call, and that the 21st call
starts from count 1.  In the source the check `if counter == 20` precedes
the call and the increment follows it, so the first 20 calls sleep zero
times and the 21st call starts from count 20. -/
theorem claim_C4_cex :
    (purge_email allCreated (mkRecords 20)).steps.countP
        (fun s => s.sleepFor == 60) = 0 ∧
      ((purge_email allCreated (mkRecords 21)).steps.getLast?).map
        MitStep.pre = some 20 := by
  decide

/-- C4 as amended: from a fresh counter, 20 calls trigger no cooldown and
leave the counter at 20; the single cooldown occurs on the 21st call,
which finds the counter at 20, sleeps 60, resets to 0 before issuing, and
ends with the counter at 1 (so the 22nd call starts from count 1). -/
theorem claim_C4_amended :
    (purge_email allCreated (mkRecords 20)).steps.countP
        (fun s => s.sleepFor == 60) = 0 ∧
      (purge_email allCreated (mkRecords 20)).finalCounter = 20 ∧
      (purge_email allCreated (mkRecords 21)).steps.countP
        (fun s => s.sleepFor == 60) = 1 ∧
      ((purge_email allCreated (mkRecords 21)).steps.getLast?).map
        (fun s => (s.pre, s.sleepFor, s.issue)) = some (20, 60, 0) ∧
      (purge_email allCreated (mkRecords 21)).finalCounter = 1 := by
  decide

/-- C5, evaluation at the failing input.  Mailboxes A and C answer 200
with one entry each; B answers 500 with a body lacking a `value` array.
Because `response.raise_for_status` (orca.py:473) is an attribute access
and never raises, B is not skipped: the code reads
`response.json()['value']`, raises KeyError, and the whole search aborts
after A — C is never processed and nothing is returned, where the claim
requires the result to be A's matches followed by C's. -/
theorem claim_C5_eval :
    (find_phish crit_sender respABC ["A", "B", "C"]).error =
        some "KeyError" ∧
      (find_phish crit_sender respABC ["A", "B", "C"]).records =
        [toRecord entryA] ∧
      (find_phish crit_sender respABC ["A", "B", "C"]).steps.length = 2 ∧
      (find_phish crit_sender respABC ["A", "B", "C"]).records ≠
        [toRecord entryA, toRecord entryC] := by
  decide

/-- C6, counterexample.  The claim says file-hash searches use a 7-day
lookback and every search carries `limit = 1000`.  The file-hash branch
(orca.py:424-429) sends `lastndays: 1` and no `limit` key at all, and the
url branch (orca.py:418-423) also omits `limit`. -/
theorem claim_C6_cex :
    sweepParams crit_hash "box" =
        some { mailbox := "box", lastndays := 1,
               file_sha1 :=
                 some "a94a8fe5ccb19ba61c4c0873d391e987982fbbd3" } ∧
      (sweepParams crit_hash "box").map SweepParams.lastndays ≠ some 7 ∧
      (sweepParams crit_hash "box").map SweepParams.limit ≠
        some (some 1000) ∧
      (sweepParams { url := some "https://bad.example.com/x" } "box").map
        SweepParams.limit ≠ some (some 1000) := by
  decide

/-- C6 as amended: every request built by `find_phish` carries
`lastndays = 1` — for file-hash searches as well; the sender-based shapes
carry `limit = 1000`, while the url and file-hash shapes carry no limit
field. -/
theorem claim_C6_amended (mb s u fh uu fe : String) :
    sweepParams { url := some uu } mb =
        some { mailbox := mb, lastndays := 1, url := some uu } ∧
      sweepParams { file_hash := some fh } mb =
        some { mailbox := mb, lastndays := 1, file_sha1 := some fh } ∧
      sweepParams { sender := some s, subject := some u } mb =
        some { mailbox := mb, lastndays := 1, sender := some s,
               subject := some u, limit := some 1000 } ∧
      sweepParams { sender := some s, file_ext := some fe } mb =
        some { mailbox := mb, lastndays := 1, sender := some s,
               file_extension := some fe, limit := some 1000 } ∧
      sweepParams
          { sender := some s, subject := some u, file_ext := some fe } mb =
        some { mailbox := mb, lastndays := 1, sender := some s,
               subject := some u, limit := some 1000 } ∧
      sweepParams { sender := some s } mb =
        some { mailbox := mb, lastndays := 1, sender := some s,
               limit := some 1000 } :=
  ⟨rfl, rfl, rfl, rfl, rfl, rfl⟩

/-- C7, counterexample.  The claim says every entry of a successful
response's `value` array is appended.  `bulk_find_phish` (orca.py:274-288)
reads only `value[0]`: a response carrying two entries contributes one
record. -/
theorem claim_C7_cex :
    (bulk_find_phish respTwo ["u"] ["A"]).phishes =
        [toBulkRecord "A" entryOne] ∧
      (bulk_find_phish respTwo ["u"] ["A"]).phishes ≠
        [toBulkRecord "A" entryOne, toBulkRecord "A" entryTwo] := by
  decide

/-- C7 as amended: on all-success runs, `find_phish` appends every entry
of every response in mailbox-then-entry order (and yields the empty
sequence, not an error, when every `value` array is empty), while
`bulk_find_phish` appends at most one record per response — the first
entry of `value`, and only when its `mail_message_id` is non-empty. -/
theorem claim_C7_amended (p : Phish) (resp : String → SweepResponse)
    (mbs : List String) (respB : String → String → List Entry)
    (urls mbs2 : List String)
    (h1 : ∀ mb ∈ mbs, (sweepParams p mb).isSome)
    (h2 : ∀ mb ∈ mbs, ((resp mb).value).isSome)
    (h3 : ∀ u ∈ urls, ∀ m ∈ mbs2, respB u m ≠ []) :
    ((find_phish p resp mbs).records =
        mbs.flatMap (fun mb => ((resp mb).value.getD []).map toRecord) ∧
      (find_phish p resp mbs).error = none) ∧
    ((bulk_find_phish respB urls mbs2).phishes =
        (urls.flatMap (fun u => mbs2.map (fun m => (u, m)))).flatMap
          (fun um =>
            match respB um.1 um.2 with
            | [] => []
            | e :: _ =>
              if e.mail_message_id.length > 0 then [toBulkRecord um.2 e]
              else []) ∧
      (bulk_find_phish respB urls mbs2).error = none) := by
  constructor
  · exact find_go_success p resp mbs 0 h1 h2
  · refine bulk_go_success respB _ 0 ?_
    intro um hum
    rw [List.mem_flatMap] at hum
    obtain ⟨u, hu, hum2⟩ := hum
    rw [List.mem_map] at hum2
    obtain ⟨m, hm, heq⟩ := hum2
    subst heq
    exact h3 u hu m hm

/-- C7, witness: the amended statement applied at a concrete run — mailbox
A matched once, mailbox B empty, and one bulk pair with a two-entry
response. -/
theorem claim_C7_witness :
    (find_phish crit_sender respW ["A", "B"]).records =
        [toRecord entryOne] ∧
      (find_phish crit_sender respW ["A", "B"]).error = none ∧
      (bulk_find_phish respTwo ["u"] ["A"]).error = none := by
  have h := claim_C7_amended crit_sender respW ["A", "B"] respTwo ["u"]
    ["A"] (by decide) (by decide) (by decide)
  refine ⟨?_, h.1.2, h.2.2⟩
  rw [h.1.1]
  decide

/-- C8: the delivery timestamp round-trips byte-identically — `find_phish`
copies `mail_message_delivery_time` of each response entry into `d_time`
verbatim, and every `pull_email`/`purge_email` request body carries the
record's `d_time` verbatim as `mail_message_delivery_time`. -/
theorem claim_C8 (resp : Nat → Nat) (l : List MatchRecord) (e : Entry) :
    (pull_email resp l).steps.map
          (fun s => s.body.map MitBody.mail_message_delivery_time) =
        l.map (fun r => [r.d_time]) ∧
      (purge_email resp l).steps.map
          (fun s => s.body.map MitBody.mail_message_delivery_time) =
        l.map (fun r => [r.d_time]) ∧
      (toRecord e).d_time = e.mail_message_delivery_time :=
  ⟨pull_go_dtimes resp l 0 0, purge_go_dtimes resp l 0 0, rfl⟩

/-- C9: rate-limiter invariant over all four loops, started fresh — every
iteration issues its request with the counter strictly below the
threshold of 20, keeps the counter within [0, 20], sleeps 60 and issues
from 0 whenever the loop head finds the counter at 20, and each loop
leaves the counter within [0, 20]. -/
theorem claim_C9 (resp : Nat → Nat) (l : List MatchRecord) (p : Phish)
    (respS : String → SweepResponse) (mbs : List String)
    (respB : String → String → List Entry) (urls mbs2 : List String) :
    ((purge_email resp l).steps.all
          (fun s => rlOk s.pre s.sleepFor s.issue) = true ∧
        (purge_email resp l).finalCounter ≤ 20) ∧
      ((pull_email resp l).steps.all
          (fun s => rlOk s.pre s.sleepFor s.issue) = true ∧
        (pull_email resp l).finalCounter ≤ 20) ∧
      ((find_phish p respS mbs).steps.all
          (fun s => rlOk s.pre s.sleepFor s.issue) = true ∧
        (find_phish p respS mbs).finalCounter ≤ 20) ∧
      ((bulk_find_phish respB urls mbs2).steps.all
          (fun s => rlOk s.pre s.sleepFor s.issue) = true ∧
        (bulk_find_phish respB urls mbs2).finalCounter ≤ 20) := by
  have hp := purge_go_rl resp l 0 0 (by omega)
  have he := pull_go_eq resp l 0 0
  refine ⟨hp, ⟨?_, ?_⟩, find_go_rl p respS mbs 0 (by omega),
    bulk_go_rl respB _ 0 (by omega)⟩
  · show (pull_email_go resp l 0 0).1.all _ = true
    rw [he, List.all_map]
    exact hp.1
  · show (pull_email_go resp l 0 0).2 ≤ 20
    rw [he]
    exact hp.2

/-- C10: `pull_email` and `purge_email` perform the same requests with the
same counter behaviour — each step identical up to rewriting the body's
action tag from MAIL_DELETE to MAIL_QUARANTINE — both return None, both
post to the same endpoint, both raise-and-catch exactly on non-201
statuses, and both continue through every input item regardless of
statuses. -/
theorem claim_C10 (resp : Nat → Nat) (l : List MatchRecord) :
    (pull_email resp l).steps =
        (purge_email resp l).steps.map quarantineStep ∧
      (pull_email resp l).finalCounter =
        (purge_email resp l).finalCounter ∧
      (pull_email resp l).ret = (purge_email resp l).ret ∧
      pull_tm_url = purge_tm_url ∧
      (purge_email resp l).steps.all
          (fun s => s.raised == (s.status != 201)) = true ∧
      (pull_email resp l).steps.length = l.length := by
  have he := pull_go_eq resp l 0 0
  refine ⟨?_, ?_, rfl, rfl, purge_go_raised resp l 0 0, ?_⟩
  · show (pull_email_go resp l 0 0).1 = _
    rw [he]
    rfl
  · show (pull_email_go resp l 0 0).2 = (purge_email_go resp l 0 0).2
    rw [he]
  · show (pull_email_go resp l 0 0).1.length = l.length
    rw [he]
    simpa using purge_go_len resp l 0 0

end Orca
